import Mathlib

/-!
Shallow embedding of the dual-handle time-range selector implemented in
src/src/components/RangeSlider.tsx of the wildfire-perimeters repository.

Modelling conventions:
* A JavaScript number is modelled as `JNum := Option ℚ`; `none` models `NaN`
  and `some q` a finite value.  The arithmetic, `Math.min` / `Math.max` and
  comparison operations below follow JavaScript NaN semantics (NaN propagates
  through arithmetic and min/max; every comparison involving NaN is false).
  Division only occurs with a non-zero denominator in the translated code
  (the source guards `dimensions.width` and otherwise divides by the literal
  constants 100 and 2), so JS infinities never arise and are not modelled.
* `getDateFromPosition` in the source returns either a `Date` object or, on
  the `!dimensions.width` fallback path, the raw number `minDate`.  This
  union is modelled by `DateVal`; calling `.getTime()` on the number variant
  throws a `TypeError` in JavaScript, modelled by `Except.error`.
* React `setRange(prev => ...)` updaters are modelled as pure functions from
  the previous window to the new window plus the optional `onRangeChange`
  emission; an exception inside the updater aborts the update, modelled with
  `Except`.
-/

/-- A JavaScript number: `none` models `NaN`, `some q` a finite value. -/
abbrev JNum := Option ℚ

/-- Embed a finite rational as a JS number. -/
def jq (q : ℚ) : JNum := some q

/-- JS addition: `NaN` propagates. -/
def jadd : JNum → JNum → JNum
  | some a, some b => some (a + b)
  | _, _ => none

/-- JS subtraction: `NaN` propagates. -/
def jsub : JNum → JNum → JNum
  | some a, some b => some (a - b)
  | _, _ => none

/-- JS multiplication: `NaN` propagates. -/
def jmul : JNum → JNum → JNum
  | some a, some b => some (a * b)
  | _, _ => none

/-- JS division by a finite constant (all divisions in the translated code
have a non-zero finite denominator): `NaN` propagates. -/
def jdivQ (a : JNum) (c : ℚ) : JNum := a.map (fun v => v / c)

/-- Model of `Math.min`: returns `NaN` if either argument is `NaN`. -/
def jmin : JNum → JNum → JNum
  | some a, some b => some (min a b)
  | _, _ => none

/-- Model of `Math.max`: returns `NaN` if either argument is `NaN`. -/
def jmax : JNum → JNum → JNum
  | some a, some b => some (max a b)
  | _, _ => none

/-- JS `>=`: false whenever either operand is `NaN`. -/
def jge : JNum → JNum → Bool
  | some a, some b => decide (b ≤ a)
  | _, _ => false

/-- The value returned by `getDateFromPosition`: a `Date` object carrying a
timestamp (possibly `NaN`), or — on the `!dimensions.width` fallback path of
the source — a raw JS number. -/
inductive DateVal
  | date (t : JNum)
  | num (v : ℚ)
deriving DecidableEq

/-- Calling `.getTime()` on the value: a `Date` yields its timestamp, while a
raw number has no `getTime` method, so the call throws a `TypeError`. -/
def DateVal.getTime : DateVal → Except Unit JNum
  | .date t => .ok t
  | .num _ => .error ()

/-- JS truthiness of the value: a `Date` object is always truthy (even with a
`NaN` timestamp); a number is truthy iff it is non-zero. -/
def truthy : DateVal → Bool
  | .date _ => true
  | .num v => decide (v ≠ 0)

/-- The `range` state of the component: `{ start, end }` pixel positions.
(`end` is a reserved word in Lean, hence the `startPx` / `endPx` field names,
matching the spec's `SelectionWindow`.) -/
structure SelectionWindow where
  startPx : JNum
  endPx : JNum
deriving DecidableEq

/-- The non-null values of the `dragging` state:
`"start" | "end" | "selection"`. -/
inductive DragMode
  | dragStart
  | dragEnd
  | dragSelection
deriving DecidableEq

/-- Value of `new Date("2024-08-03").getTime()` (UTC), the fixed `absoluteMinDate`. -/
def absoluteMinDate : ℚ := 1722643200000

/-- Value of `new Date("2024-09-30").getTime()` (UTC), the fixed `absoluteMaxDate`. -/
def absoluteMaxDate : ℚ := 1727654400000

/-- The span `totalRange = absoluteMaxDate - absoluteMinDate` (58 days in ms). -/
def totalRange : ℚ := absoluteMaxDate - absoluteMinDate

/-- Value of `new Date("2024-06-01").getTime()`, the mount-effect default start. -/
def defaultStartDate : ℚ := 1717200000000

/-- Value of `new Date("2024-08-30").getTime()`, the mount-effect default end. -/
def defaultEndDate : ℚ := 1724976000000

/-- Translation of `getDateFromPosition` (RangeSlider.tsx lines 129-133):
`if (!dimensions.width) return minDate;` then
`percentage = Math.max(0, Math.min(position / dimensions.width, 1))` and
`new Date(minDate + (totalRange * percentage))`.  Note the fallback path
returns the raw number `minDate`, not a `Date`. -/
def getDateFromPosition (width : ℚ) (position : JNum) : DateVal :=
  if width = 0 then .num absoluteMinDate
  else
    let percentage := jmax (jq 0) (jmin (jdivQ position width) (jq 1))
    .date (jadd (jq absoluteMinDate) (jmul (jq totalRange) percentage))

/-- Translation of `getPositionFromDate` (RangeSlider.tsx lines 95-98, repeated at 77-80):
`percentage = (date - minDate) / totalRange;`
`Math.max(0, Math.min(width * percentage, width))`. -/
def getPositionFromDate (width : ℚ) (date : JNum) : JNum :=
  let percentage := jdivQ (jsub date (jq absoluteMinDate)) totalRange
  jmax (jq 0) (jmin (jmul (jq width) percentage) (jq width))

/-- One autoplay tick, i.e. the body of `animate` (RangeSlider.tsx lines
137-158) run while `isPlaying` is true.  Returns the new window, the new
`isPlaying` flag, and the `onRangeChange` emission (if any).  Note that the
emission in this path is not guarded by any `NaN` check. -/
def animateTick (width speed : ℚ) (prev : SelectionWindow) :
    SelectionWindow × Bool × Option (DateVal × DateVal) :=
  let increment : ℚ := (width * speed) / 100
  let newEnd := jmin (jadd prev.endPx (jq increment)) (jq width)
  let newStart := jmin (jadd prev.startPx (jq increment)) (jsub newEnd (jq 20))
  if jge newEnd (jq width) then
    (prev, false, none)
  else
    (⟨newStart, newEnd⟩, true,
      some (getDateFromPosition width newStart, getDateFromPosition width newEnd))

/-- The emission guard of `handleMouseMove` (RangeSlider.tsx lines 198-200):
`dateRange.start && dateRange.end && !isNaN(dateRange.start.getTime()) &&
!isNaN(dateRange.end.getTime())`, with JS short-circuit evaluation; the
`.getTime()` calls throw when the operand is a raw number. -/
def emitOk (a b : DateVal) : Except Unit Bool :=
  if truthy a = false then .ok false
  else if truthy b = false then .ok false
  else
    match a.getTime with
    | .error e => .error e
    | .ok ta =>
      if ta = none then .ok false
      else
        match b.getTime with
        | .error e => .error e
        | .ok tb => .ok tb.isSome

/-- Translation of `handleMouseMove` (RangeSlider.tsx lines 173-206) as a pure transition:
given the `dragging` state, the track width, the pointer `clientX`, the
container's `rect.left` and the previous window, it returns the committed
window plus the optional emission, or `Except.error` when the updater throws
(in which case nothing is committed).  A null `dragging` returns early with
no state change; the non-null `containerRef` is assumed (listeners are only
attached while a drag is active and the container is mounted). -/
def handleMouseMove (dragging : Option DragMode) (width clientX rectLeft : ℚ)
    (prev : SelectionWindow) :
    Except Unit (SelectionWindow × Option (DateVal × DateVal)) :=
  match dragging with
  | none => .ok (prev, none)
  | some mode =>
    let x : ℚ := max 0 (min (clientX - rectLeft) width)
    let newRange : SelectionWindow :=
      match mode with
      | .dragStart => ⟨jmin (jq x) (jsub prev.endPx (jq 20)), prev.endPx⟩
      | .dragEnd => ⟨prev.startPx, jmax (jq x) (jadd prev.startPx (jq 20))⟩
      | .dragSelection =>
        let w := jsub prev.endPx prev.startPx
        let ns := jmax (jq 0) (jmin (jsub (jq x) (jdivQ w 2)) (jsub (jq width) w))
        ⟨ns, jadd ns w⟩
    let ds := getDateFromPosition width newRange.startPx
    let de := getDateFromPosition width newRange.endPx
    match emitOk ds de with
    | .error e => .error e
    | .ok b => .ok (newRange, if b then some (ds, de) else none)

/-- Translation of `handleReset` (RangeSlider.tsx lines 212-216): sets the window to
`{start: 0, end: dimensions.width}`, emits `{start: minDate, end: maxDate}`
(note: the raw numbers, not `Date` objects) and stops playback. -/
def handleReset (width : ℚ) :
    SelectionWindow × (DateVal × DateVal) × Bool :=
  (⟨jq 0, jq width⟩, (.num absoluteMinDate, .num absoluteMaxDate), false)

/-- Projects the committed window out of a `handleMouseMove` result;
`none` when the updater threw. -/
def rangeOf (r : Except Unit (SelectionWindow × Option (DateVal × DateVal))) :
    Option SelectionWindow :=
  match r with
  | .ok (w, _) => some w
  | .error _ => none

/-- The `{ minDate, maxDate }` memo (RangeSlider.tsx lines 64-68): the
resolved time domain is the pair of fixed constants; the `events` prop is
not consulted (the `dates` memo derived from it is never used here). -/
def resolvedTimeDomain (events : List ℚ) : ℚ × ℚ :=
  (absoluteMinDate, absoluteMaxDate)

/-- The component state relevant to range emissions: the selection window,
the measured track width and the `isPlaying` flag. -/
structure SliderState where
  window : SelectionWindow
  width : ℚ
  isPlaying : Bool

/-- The discrete external inputs that can change the emitted date range:
the mount/resize measurement, a pointer move (with the current `dragging`
mode), an animation tick, the reset command and the play/pause toggle. -/
inductive SliderInput
  | mount (w : ℚ)
  | pointerMove (mode : Option DragMode) (clientX rectLeft : ℚ)
  | tick
  | reset
  | togglePlay

/-- One transition of the component, with the `events` prop in scope as the
component receives it.  `mount` plays the container-measured effect
(RangeSlider.tsx lines 90-112): it sets the width, repositions the window
from the fixed default dates and emits them as `Date`s.  `pointerMove`,
`tick` and `reset` defer to the handlers above; the autoplay speed is the
constant 1 (`useState(1)` with no setter).  An exception aborts the update
(nothing committed, nothing emitted). -/
def sliderStep (events : List ℚ) (st : SliderState) (inp : SliderInput) :
    SliderState × Option (DateVal × DateVal) :=
  match inp with
  | .mount w =>
    let win : SelectionWindow :=
      ⟨getPositionFromDate w (jq defaultStartDate), getPositionFromDate w (jq defaultEndDate)⟩
    ({ st with width := w, window := win },
      some (.date (jq defaultStartDate), .date (jq defaultEndDate)))
  | .pointerMove mode cx rl =>
    match handleMouseMove mode st.width cx rl st.window with
    | .ok (r, em) => ({ st with window := r }, em)
    | .error _ => (st, none)
  | .tick =>
    if st.isPlaying then
      match animateTick st.width 1 st.window with
      | (r, p, em) => ({ st with window := r, isPlaying := p }, em)
    else (st, none)
  | .reset =>
    match handleReset st.width with
    | (r, em, p) => ({ st with window := r, isPlaying := p }, some em)
  | .togglePlay => ({ st with isPlaying := !st.isPlaying }, none)

/-- Runs a sequence of inputs, collecting the per-step emissions. -/
def sliderRun (events : List ℚ) (st : SliderState) :
    List SliderInput → SliderState × List (Option (DateVal × DateVal))
  | [] => (st, [])
  | i :: is =>
    let s2 := sliderStep events st i
    let s3 := sliderRun events s2.1 is
    (s3.1, s2.2 :: s3.2)

/-- C3 (amended): `getDateFromPosition` is total for every finite pixel
input: with a positive width it returns a `Date` whose timestamp is
`minDate + totalRange * clamp(px / width, 0, 1)` — including negative and
over-width inputs, which are clamped — while for `width = 0` it returns the
raw number `minDate` (not a `Date`, as the claim states). -/
theorem c3_position_to_date_total (w px : ℚ) :
    getDateFromPosition w (jq px) =
      if w = 0 then .num absoluteMinDate
      else .date (some (absoluteMinDate + totalRange * max 0 (min (px / w) 1))) := by
  by_cases hw : w = 0
  · simp [getDateFromPosition, hw]
  · simp [getDateFromPosition, hw, jq, jmax, jmin, jdivQ, jadd, jmul]

/-- C3 counterexample: at `width = 0`, `getDateFromPosition` returns the raw
number `minDate`, not `minTime` wrapped in a `Date` as the claim states (the
distinction is observable: the emission guard later calls `.getTime()` on
the result, which throws on a raw number). -/
theorem c3_width_zero_counterexample :
    getDateFromPosition 0 (jq 5) = .num absoluteMinDate ∧
      DateVal.num absoluteMinDate ≠ DateVal.date (some absoluteMinDate) := by
  constructor
  · simp [getDateFromPosition]
  · simp

/-- C6 (amended): with `widthPx = 800` and the fixed domain
2024-08-03 .. 2024-09-30 (UTC), `positionToDate` maps 0 to 2024-08-03,
800 to 2024-09-30, and 400 to 2024-09-01T00:00:00Z (timestamp
1725148800000), the true midpoint of the 58-day span — not to
2024-08-27T12:00 as the claim states. -/
theorem c6_fixed_domain_scenario :
    getDateFromPosition 800 (jq 0) = .date (some 1722643200000) ∧
    getDateFromPosition 800 (jq 800) = .date (some 1727654400000) ∧
    getDateFromPosition 800 (jq 400) = .date (some 1725148800000) := by
  refine ⟨?_, ?_, ?_⟩ <;>
    norm_num [getDateFromPosition, jq, jmax, jmin, jdivQ, jadd, jmul, absoluteMinDate,
      totalRange, absoluteMaxDate, min_def, max_def]

/-- C6 counterexample: `positionToDate(400)` is 2024-09-01T00:00:00Z
(1725148800000 ms), which is not the claimed approximate midpoint
2024-08-27T12:00:00Z (1724760000000 ms) — the two differ by 4.5 days. -/
theorem c6_midpoint_counterexample :
    getDateFromPosition 800 (jq 400) = .date (some 1725148800000) ∧
      DateVal.date (some (1725148800000 : ℚ)) ≠ .date (some 1724760000000) := by
  constructor
  · norm_num [getDateFromPosition, jq, jmax, jmin, jdivQ, jadd, jmul, absoluteMinDate,
      totalRange, absoluteMaxDate, min_def, max_def]
  · norm_num

/-- C9: with `widthPx = 0`, a pointer move while dragging the end handle
from the window `{0, 100}` makes the updater throw (modelled by
`Except.error`): `getDateFromPosition` falls back to the raw number
`minDate`, and the emission guard's `.getTime()` call on it is a
`TypeError`.  The claim (and the spec's error-handling design) says drags at
`widthPx = 0` are safe no-ops that never throw. -/
theorem c9_width_zero_drag_throws :
    handleMouseMove (some .dragEnd) 0 50 0 ⟨some 0, some 100⟩ = .error () := by
  norm_num [handleMouseMove, emitOk, truthy, DateVal.getTime, getDateFromPosition,
    jq, jmax, jmin, jadd, jsub, jdivQ, absoluteMinDate, min_def, max_def]

/-- C4: one autoplay tick while playing computes
`increment = width * speed / 100`, `newEnd = min(endPx + increment, width)`
and `newStart = min(startPx + increment, newEnd - 20)`; if `newEnd ≥ width`
it stops playback and leaves the window unchanged with no emission,
otherwise it commits `{newStart, newEnd}`, keeps playing and emits the
derived date interval. -/
theorem c4_autoplay_tick_behavior (w sp s e : ℚ) :
    animateTick w sp ⟨some s, some e⟩ =
      if w ≤ min (e + w * sp / 100) w then
        (⟨some s, some e⟩, false, none)
      else
        (⟨some (min (s + w * sp / 100) (min (e + w * sp / 100) w - 20)),
            some (min (e + w * sp / 100) w)⟩, true,
          some (getDateFromPosition w
              (some (min (s + w * sp / 100) (min (e + w * sp / 100) w - 20))),
            getDateFromPosition w (some (min (e + w * sp / 100) w)))) := by
  by_cases h : w ≤ min (e + w * sp / 100) w
  · simp [animateTick, jadd, jmin, jsub, jge, jq, h]
  · simp [animateTick, jadd, jmin, jsub, jge, jq, h]

/-- C2: for any `px` in `[0, widthPx]` with a positive width, mapping the
pixel to a date with `getDateFromPosition` and back with
`getPositionFromDate` returns exactly `px` (the rational model is exact, so
the claim's floating-point tolerance is met with equality), with no clamping
triggered on the interior. -/
theorem c2_round_trip (w px : ℚ) (hw : 0 < w) (h0 : 0 ≤ px) (hpx : px ≤ w) :
    ∃ t : ℚ, getDateFromPosition w (jq px) = .date (some t) ∧
      getPositionFromDate w (some t) = jq px := by
  have hw' : w ≠ 0 := ne_of_gt hw
  have hr : totalRange ≠ 0 := by
    norm_num [totalRange, absoluteMinDate, absoluteMaxDate]
  have h1 : px / w ≤ 1 := (div_le_one hw).mpr hpx
  have h2 : 0 ≤ px / w := div_nonneg h0 (le_of_lt hw)
  refine ⟨absoluteMinDate + totalRange * (px / w), ?_, ?_⟩
  · simp [getDateFromPosition, hw', jq, jmax, jmin, jdivQ, jadd, jmul]
    rw [min_eq_left h1, max_eq_right h2]
    exact Or.inl rfl
  · simp [getPositionFromDate, jq, jsub, jdivQ, jmul, jmax, jmin]
    rw [mul_div_cancel_left₀ _ hr, mul_comm w (px / w), div_mul_cancel₀ px hw',
      min_eq_left hpx, max_eq_right h0]

/-- C2 witness: the round trip at `widthPx = 800`, `px = 400`. -/
theorem c2_round_trip_witness :
    (0 : ℚ) < 800 ∧ (0 : ℚ) ≤ 400 ∧ (400 : ℚ) ≤ 800 ∧
      ∃ t : ℚ, getDateFromPosition 800 (jq 400) = .date (some t) ∧
        getPositionFromDate 800 (some t) = jq 400 :=
  ⟨by norm_num, by norm_num, by norm_num,
    c2_round_trip 800 400 (by norm_num) (by norm_num) (by norm_num)⟩

/-- Derived closed form of the window committed by a pointer move on a
finite previous window, with `x` the clamped pointer position (proved equal
to the source translation in `handleMouseMove_commit`). -/
def dragResult (mode : DragMode) (w x s e : ℚ) : SelectionWindow :=
  match mode with
  | .dragStart => ⟨some (min x (e - 20)), some e⟩
  | .dragEnd => ⟨some s, some (max x (s + 20))⟩
  | .dragSelection =>
    let ns := max 0 (min (x - (e - s) / 2) (w - (e - s)))
    ⟨some ns, some (ns + (e - s))⟩

/-- Whenever `handleMouseMove` commits (does not throw), the committed
window is `dragResult` of the clamped pointer position. -/
lemma handleMouseMove_commit (mode : DragMode) (w cx rl s e : ℚ)
    (r : SelectionWindow)
    (h : rangeOf (handleMouseMove (some mode) w cx rl ⟨some s, some e⟩) = some r) :
    r = dragResult mode w (max 0 (min (cx - rl) w)) s e := by
  cases mode <;>
    simp only [handleMouseMove] at h <;>
    split at h <;>
    simp only [rangeOf, Option.some.injEq, reduceCtorEq] at h <;>
    rw [← h] <;>
    simp [dragResult, jmin, jmax, jadd, jsub, jdivQ, jq]

/-- Closed form of one autoplay tick on a finite previous window. -/
lemma animateTick_eq (w sp s e : ℚ) :
    animateTick w sp ⟨some s, some e⟩ =
      if w ≤ min (e + w * sp / 100) w then
        (⟨some s, some e⟩, false, none)
      else
        (⟨some (min (s + w * sp / 100) (min (e + w * sp / 100) w - 20)),
            some (min (e + w * sp / 100) w)⟩, true,
          some (getDateFromPosition w
              (some (min (s + w * sp / 100) (min (e + w * sp / 100) w - 20))),
            getDateFromPosition w (some (min (e + w * sp / 100) w)))) := by
  by_cases h : w ≤ min (e + w * sp / 100) w
  · simp [animateTick, jadd, jmin, jsub, jge, jq, h]
  · simp [animateTick, jadd, jmin, jsub, jge, jq, h]

/-- C1 (amended): starting from a window of width at least `MIN_WIDTH_PX =
20`, every pointer-move commit (any drag mode) and every autoplay tick
yields a window of width at least 20; the reset transition yields
`{0, widthPx}`, which has width at least 20 provided `widthPx ≥ 20` (for
smaller widths reset violates the invariant, see the counterexample). -/
theorem c1_min_width_preserved :
    (∀ (mode : DragMode) (w cx rl s e : ℚ) (r : SelectionWindow),
        20 ≤ e - s →
        rangeOf (handleMouseMove (some mode) w cx rl ⟨some s, some e⟩) = some r →
        ∃ s2 e2 : ℚ, r.startPx = some s2 ∧ r.endPx = some e2 ∧ 20 ≤ e2 - s2) ∧
    (∀ w sp s e : ℚ, 20 ≤ e - s →
        ∃ s2 e2 : ℚ, (animateTick w sp ⟨some s, some e⟩).1.startPx = some s2 ∧
          (animateTick w sp ⟨some s, some e⟩).1.endPx = some e2 ∧ 20 ≤ e2 - s2) ∧
    (∀ w : ℚ, 20 ≤ w →
        (handleReset w).1.startPx = some 0 ∧ (handleReset w).1.endPx = some w ∧
          20 ≤ w - 0) := by
  refine ⟨?_, ?_, ?_⟩
  · intro mode w cx rl s e r hpre hr
    have h := handleMouseMove_commit mode w cx rl s e r hr
    subst h
    cases mode
    · exact ⟨_, e, rfl, rfl, by
        have := min_le_right (max 0 (min (cx - rl) w)) (e - 20); linarith⟩
    · exact ⟨s, _, rfl, rfl, by
        have := le_max_right (max 0 (min (cx - rl) w)) (s + 20); linarith⟩
    · refine ⟨_, _, rfl, rfl, ?_⟩  -- width preserved: (ns + (e - s)) - ns = e - s
      simp only [add_sub_cancel_left]
      exact hpre
  · intro w sp s e hpre
    rw [animateTick_eq]
    by_cases hc : w ≤ min (e + w * sp / 100) w
    · rw [if_pos hc]
      exact ⟨s, e, rfl, rfl, hpre⟩
    · rw [if_neg hc]
      refine ⟨_, _, rfl, rfl, ?_⟩
      have := min_le_right (s + w * sp / 100) (min (e + w * sp / 100) w - 20)
      linarith
  · intro w hw
    exact ⟨rfl, rfl, by linarith⟩

/-- C1 witness: instantiating the three parts — a start-handle drag commit
from `{100, 300}` at pointer 300 on an 800px track, an autoplay tick from
`{0, 200}` at width 1000 and speed 1, and reset at width 800. -/
theorem c1_min_width_preserved_witness :
    (∃ s2 e2 : ℚ, (SelectionWindow.mk (some 280) (some 300)).startPx = some s2 ∧
      (SelectionWindow.mk (some 280) (some 300)).endPx = some e2 ∧ 20 ≤ e2 - s2) ∧
    (∃ s2 e2 : ℚ, (animateTick 1000 1 ⟨some 0, some 200⟩).1.startPx = some s2 ∧
      (animateTick 1000 1 ⟨some 0, some 200⟩).1.endPx = some e2 ∧ 20 ≤ e2 - s2) ∧
    ((handleReset 800).1.startPx = some 0 ∧ (handleReset 800).1.endPx = some 800 ∧
      (20 : ℚ) ≤ 800 - 0) :=
  ⟨c1_min_width_preserved.1 .dragStart 800 300 0 100 300 ⟨some 280, some 300⟩
      (by norm_num)
      (by
        norm_num [rangeOf, handleMouseMove, emitOk, truthy, DateVal.getTime,
          getDateFromPosition, jq, jmax, jmin, jadd, jsub, jdivQ, jmul, absoluteMinDate,
          totalRange, absoluteMaxDate, min_def, max_def]
        simp),
    c1_min_width_preserved.2.1 1000 1 0 200 (by norm_num),
    c1_min_width_preserved.2.2 800 (by norm_num)⟩

/-- C1 counterexample: reset at `widthPx = 10` from the valid window
`{0, 100}` commits the window `{0, 10}`, whose width 10 is below
`MIN_WIDTH_PX = 20` — the claim's invariant fails on the reset transition
for track widths below 20. -/
theorem c1_reset_counterexample :
    (20 : ℚ) ≤ 100 - 0 ∧
    (handleReset 10).1 = ⟨some 0, some 10⟩ ∧
    ¬ (20 : ℚ) ≤ 10 - 0 := by
  refine ⟨by norm_num, ?_, by norm_num⟩
  simp [handleReset, jq]

/-- C5 (amended): an autoplay tick that commits movement (playback still
on) keeps the committed start non-negative provided the pre-tick window is
within bounds and satisfies the minimum-width invariant
`endPx - startPx ≥ 20`; without that invariant the committed start can be
negative (see the counterexample). -/
theorem c5_autoplay_start_nonneg (w sp s e : ℚ) (r : SelectionWindow)
    (em : Option (DateVal × DateVal)) (h0 : 0 ≤ s) (hmin : 20 ≤ e - s)
    (he : e ≤ w) (hsp : 0 < sp)
    (h : animateTick w sp ⟨some s, some e⟩ = (r, true, em)) :
    ∃ s2 : ℚ, r.startPx = some s2 ∧ 0 ≤ s2 := by
  rw [animateTick_eq] at h
  by_cases hc : w ≤ min (e + w * sp / 100) w
  · rw [if_pos hc] at h
    exact absurd (congrArg (fun p => p.2.1) h) (by simp)
  · rw [if_neg hc] at h
    have hr : r = ⟨some (min (s + w * sp / 100) (min (e + w * sp / 100) w - 20)),
        some (min (e + w * sp / 100) w)⟩ := by
      have := congrArg Prod.fst h
      simpa using this.symm
    refine ⟨min (s + w * sp / 100) (min (e + w * sp / 100) w - 20), by rw [hr], ?_⟩
    have hwpos : (0 : ℚ) < w := by linarith
    have hinc : (0 : ℚ) ≤ w * sp / 100 := by positivity
    refine le_min (by linarith) ?_
    have h1 : (20 : ℚ) ≤ e + w * sp / 100 := by linarith
    have h2 : (20 : ℚ) ≤ w := by linarith
    have := le_min h1 h2
    linarith

/-- C5 witness: a committing tick from `{0, 200}` at width 1000, speed 1;
the committed start is 10. -/
theorem c5_autoplay_start_nonneg_witness :
    (0 : ℚ) ≤ 0 ∧ (20 : ℚ) ≤ 200 - 0 ∧ (200 : ℚ) ≤ 1000 ∧ (0 : ℚ) < 1 ∧
      ∃ s2 : ℚ, (SelectionWindow.mk (some 10) (some 210)).startPx = some s2 ∧ 0 ≤ s2 :=
  ⟨by norm_num, by norm_num, by norm_num, by norm_num,
    c5_autoplay_start_nonneg 1000 1 0 200 ⟨some 10, some 210⟩
      (some (.date (some 1722693312000), .date (some 1723695552000)))
      (by norm_num) (by norm_num) (by norm_num) (by norm_num)
      (by norm_num [animateTick, getDateFromPosition, jq, jmin, jmax, jadd, jsub, jge,
        jdivQ, jmul, absoluteMinDate, totalRange, absoluteMaxDate, min_def, max_def])⟩

/-- C5 counterexample: from the in-bounds pre-tick state `{0, 0}` at width
1000 and speed 1 (the claim quantifies over any `startPx, endPx` in
`[0, widthPx]` and any positive speed, without the minimum-width
invariant), the tick commits movement (playback stays on, an interval is
emitted) with committed start `-10 < 0`: the code clamps `newStart` with
`newEnd - 20` but never re-clamps to `≥ 0`. -/
theorem c5_negative_start_counterexample :
    (animateTick 1000 1 ⟨some 0, some 0⟩).1.startPx = some (-10) ∧
    (animateTick 1000 1 ⟨some 0, some 0⟩).2.1 = true ∧
    (animateTick 1000 1 ⟨some 0, some 0⟩).2.2 ≠ none ∧
    (-10 : ℚ) < 0 := by
  refine ⟨?_, ?_, ?_, by norm_num⟩ <;>
    norm_num [animateTick, jq, jmin, jmax, jadd, jsub, jge, min_def, max_def] <;>
    simp

/-- The emission guard on two `Date` values: no throw, and it passes iff
neither timestamp is `NaN`. -/
lemma emitOk_date_date (t u : JNum) :
    emitOk (.date t) (.date u) = .ok (if t = none then false else u.isSome) := by
  cases t <;> cases u <;> simp [emitOk, truthy, DateVal.getTime]

/-- If the emission guard passes, both values are `Date`s with non-`NaN`
timestamps. -/
lemma emitOk_ok_true (a b : DateVal) (h : emitOk a b = .ok true) :
    (∃ ta : ℚ, a = .date (some ta)) ∧ ∃ tb : ℚ, b = .date (some tb) := by
  cases a with
  | num v =>
    exfalso
    cases b with
    | date u =>
      by_cases hv : v = 0 <;> simp [emitOk, truthy, hv, DateVal.getTime] at h
    | num u =>
      by_cases hv : v = 0 <;> by_cases hu : u = 0 <;>
        simp [emitOk, truthy, hv, hu, DateVal.getTime] at h
  | date t =>
    cases b with
    | num u =>
      exfalso
      cases t <;> by_cases hu : u = 0 <;>
        simp [emitOk, truthy, hu, DateVal.getTime] at h
    | date u =>
      cases t with
      | none => exfalso; simp [emitOk, truthy, DateVal.getTime] at h
      | some tv =>
        cases u with
        | none => exfalso; simp [emitOk, truthy, DateVal.getTime] at h
        | some uv => exact ⟨⟨tv, rfl⟩, ⟨uv, rfl⟩⟩

/-- C7 (amended): a pointer move while dragging the selection body moves
the window so that it is centred on the clamped pointer position (the code
tracks no pointer-down offset), keeping its width fixed and clamping so
both ends stay in `[0, widthPx]`.  From `{100, 300}` on an 800px track, a
pointer at 250 (delta +50 from the window centre 200) yields `{150, 350}`;
a pointer at 800 (delta +600, clamped) yields `{600, 800}` — not the
claimed `{500, 700}`. -/
theorem c7_drag_selection_behavior :
    (∀ w cx rl s e : ℚ, 0 < w → 0 ≤ s → s ≤ e → e ≤ w →
      ∃ (s2 : ℚ) (em : Option (DateVal × DateVal)),
        handleMouseMove (some .dragSelection) w cx rl ⟨some s, some e⟩ =
          .ok (⟨some s2, some (s2 + (e - s))⟩, em) ∧
        0 ≤ s2 ∧ s2 + (e - s) ≤ w) ∧
    rangeOf (handleMouseMove (some .dragSelection) 800 250 0 ⟨some 100, some 300⟩) =
      some ⟨some 150, some 350⟩ ∧
    rangeOf (handleMouseMove (some .dragSelection) 800 800 0 ⟨some 100, some 300⟩) =
      some ⟨some 600, some 800⟩ := by
  refine ⟨?_, ?_, ?_⟩
  · intro w cx rl s e hw h0 hse hew
    have hw' : w ≠ 0 := ne_of_gt hw
    refine ⟨max 0 (min (max 0 (min (cx - rl) w) - (e - s) / 2) (w - (e - s))), ?_, ?_,
      le_max_left _ _, ?_⟩
    · exact some (getDateFromPosition w
          (some (max 0 (min (max 0 (min (cx - rl) w) - (e - s) / 2) (w - (e - s))))),
        getDateFromPosition w
          (some (max 0 (min (max 0 (min (cx - rl) w) - (e - s) / 2) (w - (e - s))) + (e - s))))
    · simp [handleMouseMove, getDateFromPosition, hw', emitOk, truthy, DateVal.getTime,
        jq, jmax, jmin, jadd, jsub, jmul, jdivQ]
    · have h1 : max 0 (min (max 0 (min (cx - rl) w) - (e - s) / 2) (w - (e - s)))
          ≤ w - (e - s) :=
        max_le (by linarith) (min_le_right _ _)
      linarith
  · norm_num [rangeOf, handleMouseMove, emitOk, truthy, DateVal.getTime, getDateFromPosition,
      jq, jmax, jmin, jadd, jsub, jdivQ, jmul, absoluteMinDate, totalRange, absoluteMaxDate,
      min_def, max_def]
    simp
  · norm_num [rangeOf, handleMouseMove, emitOk, truthy, DateVal.getTime, getDateFromPosition,
      jq, jmax, jmin, jadd, jsub, jdivQ, jmul, absoluteMinDate, totalRange, absoluteMaxDate,
      min_def, max_def]
    simp

/-- C7 witness: instantiating the general part at the first concrete
scenario (window `{100, 300}`, track width 800, pointer at 250). -/
theorem c7_drag_selection_behavior_witness :
    (0 : ℚ) < 800 ∧ (0 : ℚ) ≤ 100 ∧ (100 : ℚ) ≤ 300 ∧ (300 : ℚ) ≤ 800 ∧
      ∃ (s2 : ℚ) (em : Option (DateVal × DateVal)),
        handleMouseMove (some .dragSelection) 800 250 0 ⟨some 100, some 300⟩ =
          .ok (⟨some s2, some (s2 + (300 - 100))⟩, em) ∧
        0 ≤ s2 ∧ s2 + (300 - 100) ≤ 800 :=
  ⟨by norm_num, by norm_num, by norm_num, by norm_num,
    c7_drag_selection_behavior.1 800 250 0 100 300
      (by norm_num) (by norm_num) (by norm_num) (by norm_num)⟩

/-- C7 counterexample: with the window `{100, 300}` and `widthPx = 800`, a
pointer delta of +600 (pointer at 800, at or beyond the clamp) commits
`{600, 800}`, not the claimed `{500, 700}`. -/
theorem c7_shift_counterexample :
    rangeOf (handleMouseMove (some .dragSelection) 800 800 0 ⟨some 100, some 300⟩) =
      some ⟨some 600, some 800⟩ ∧
    SelectionWindow.mk (some 600) (some 800) ≠ ⟨some 500, some 700⟩ := by
  constructor
  · norm_num [rangeOf, handleMouseMove, emitOk, truthy, DateVal.getTime, getDateFromPosition,
      jq, jmax, jmin, jadd, jsub, jdivQ, jmul, absoluteMinDate, totalRange, absoluteMaxDate,
      min_def, max_def]
    simp
  · simp only [ne_eq, SelectionWindow.mk.injEq, Option.some.injEq]
    norm_num

/-- C8 (amended): the drag-move emission is guarded — whenever
`handleMouseMove` commits and emits, both emitted values are `Date`s with
non-`NaN` timestamps (a `NaN` suppresses the emission) — but the autoplay
tick's emission has no such guard and can forward a `NaN` date (see the
counterexample), and reset emits the fixed constant bounds unguarded. -/
theorem c8_emission_guard (dragging : Option DragMode) (w cx rl : ℚ)
    (prev r : SelectionWindow) (a b : DateVal)
    (h : handleMouseMove dragging w cx rl prev = .ok (r, some (a, b))) :
    (∃ ta : ℚ, a = .date (some ta)) ∧ ∃ tb : ℚ, b = .date (some tb) := by
  cases dragging with
  | none => simp [handleMouseMove] at h
  | some mode =>
    simp only [handleMouseMove] at h
    split at h
    next e he => exact absurd h (by simp)
    next b' hb' =>
      cases b' with
      | false => simp at h
      | true =>
        simp only [Except.ok.injEq, Prod.mk.injEq, Option.some.injEq] at h
        obtain ⟨h1, rfl, rfl⟩ := h
        exact emitOk_ok_true _ _ hb'

/-- C8 witness: a start-handle drag on an 800px track from `{100, 300}`
with the pointer at 300 emits the two derived dates, which are valid
(non-`NaN`) `Date`s. -/
theorem c8_emission_guard_witness :
    (∃ ta : ℚ, DateVal.date (some 1724397120000) = .date (some ta)) ∧
      ∃ tb : ℚ, DateVal.date (some 1724522400000) = .date (some tb) :=
  c8_emission_guard (some .dragStart) 800 300 0 ⟨some 100, some 300⟩
    ⟨some 280, some 300⟩ (.date (some 1724397120000)) (.date (some 1724522400000))
    (by
      norm_num [handleMouseMove, emitOk, truthy, DateVal.getTime, getDateFromPosition,
        jq, jmax, jmin, jadd, jsub, jdivQ, jmul, absoluteMinDate, totalRange,
        absoluteMaxDate, min_def, max_def]
      simp)

/-- C8 counterexample: an autoplay tick from a state whose start position
is `NaN` (`none` in the model) commits and emits an interval whose start is
a `Date` with a `NaN` timestamp — the animate path forwards the corrupt
interval instead of suppressing the emission as the claim requires. -/
theorem c8_autoplay_nan_counterexample :
    (animateTick 100 1 ⟨none, some 50⟩).2.2 =
      some (.date none, .date (some 1725198912000)) := by
  norm_num [animateTick, getDateFromPosition, jq, jmin, jmax, jadd, jsub, jge, jdivQ,
    jmul, absoluteMinDate, totalRange, absoluteMaxDate, min_def, max_def]

/-- C10: the emitted date intervals never depend on the `events` prop: the
resolved time domain is the pair of fixed constants 2024-08-03 /
2024-09-30, and any two runs of the same input sequence (mount, pointer
moves, ticks, resets, play toggles) from the same state under different
event lists produce identical states and identical emissions. -/
theorem c10_events_independent :
    (∀ events : List ℚ, resolvedTimeDomain events = (1722643200000, 1727654400000)) ∧
    (∀ (evs1 evs2 : List ℚ) (st : SliderState) (inputs : List SliderInput),
      sliderRun evs1 st inputs = sliderRun evs2 st inputs) := by
  constructor
  · intro events
    simp [resolvedTimeDomain, absoluteMinDate, absoluteMaxDate]
  · intro evs1 evs2 st inputs
    induction inputs generalizing st with
    | nil => rfl
    | cons i is ih =>
      have hstep : sliderStep evs1 st i = sliderStep evs2 st i := rfl
      simp only [sliderRun]
      rw [hstep, ih]
